import Mathlib

/-
Verification of the credential-refresh and request/response mapping logic of
the two CLI scripts `scripts/gcal.py` and `scripts/gmail.py`.

The Python code is shallowly embedded: each script-level function becomes an
executable Lean function from an explicit environment (token-file contents,
the credential library's expiry judgement, the provider's responses) to a
trace of observable effects (stderr/stdout prints, the refresh network call,
token-file writes, API calls) together with an outcome (normal return,
`sys.exit(code)`, or an uncaught exception).

Third-party behaviour that the scripts merely invoke (the google-auth
credential object's expiry evaluation, the HTTP transport, base64 decoding,
`datetime.strptime`) is modelled as environment data or as explicit pure
functions mirroring the documented library semantics.
-/

/-- The persisted OAuth token record (`token.json`).  Each field is read with
`dict.get`, so every field is optional (absent JSON key ↦ `none`). -/
structure TokenData where
  token : Option String
  refresh_token : Option String
  token_uri : Option String
  client_id : Option String
  client_secret : Option String
  deriving Repr, DecidableEq

/-- The google-auth credential object as constructed by both scripts: it is
built from exactly the five token-record fields (no expiry is passed). -/
structure Credentials where
  token : Option String
  refresh_token : Option String
  token_uri : Option String
  client_id : Option String
  client_secret : Option String
  deriving Repr, DecidableEq

/-- `Credentials(token=d["token"], refresh_token=d["refresh_token"], ...)`. -/
def Credentials.ofTokenData (d : TokenData) : Credentials :=
  ⟨d.token, d.refresh_token, d.token_uri, d.client_id, d.client_secret⟩

/-- Python truthiness of an optional string: `None` and `""` are falsy. -/
def pyTruthy : Option String → Bool
  | none => false
  | some s => s ≠ ""

/-- Result of the `creds.refresh(Request())` network call: either a new
access token, or a raised exception (e.g. invalid/revoked refresh token). -/
inductive RefreshResult where
  | ok (newToken : String)
  | err (msg : String)
  deriving Repr, DecidableEq

/-- Environment seen by `get_service`:
  * `tokenFile` — contents of the script's token file (`none` = file absent);
  * `expired` — the value of `creds.expired` as judged by the google-auth
    library (expiry handling lives in the library, outside this repository,
    so it is an environment flag);
  * `refresh` — what the token endpoint answers if a refresh is attempted. -/
structure AuthEnv where
  tokenFile : Option TokenData
  expired : Bool
  refresh : RefreshResult
  deriving Repr, DecidableEq

/-- Year/month/day/hour/minute as produced by `datetime.strptime`. -/
structure SimpleDT where
  year : Nat
  month : Nat
  day : Nat
  hour : Nat
  minute : Nat
  deriving Repr, DecidableEq

/-- A `start`/`end` field of an event payload: either a `dateTime` value with
an explicit UTC-offset (minutes), or a bare `date` string with no time zone. -/
inductive PayloadTime where
  | dateTime (dt : SimpleDT) (offsetMinutes : Int)
  | date (s : String)
  deriving Repr, DecidableEq

/-- The event body submitted to `events().insert`. -/
structure EventPayload where
  summary : String
  start : PayloadTime
  stop : PayloadTime
  description : Option String
  deriving Repr, DecidableEq

/-- Observable side effects of one script invocation. -/
inductive Effect where
  | printOut (s : String)
  | printErr (s : String)
  | refreshCall
  | writeToken (d : TokenData)
  | insertEvent (e : EventPayload)
  | listMessages (query : String) (maxResults : Nat)
  | getMessage (id : String)
  deriving Repr, DecidableEq

/-- How a script-level function terminates: normal value, `sys.exit(code)`,
or an uncaught Python exception. -/
inductive Outcome (α : Type) where
  | ok (a : α)
  | exit (code : Nat)
  | raise (msg : String)
  deriving Repr, DecidableEq

/-- A built API service object: the API name/version plus the credential it
will authenticate with. -/
structure Service where
  api : String
  version : String
  creds : Credentials
  deriving Repr, DecidableEq

/-- Sequencing after `service = get_service()`: its effects happen first and
`sys.exit` / a raised exception aborts the caller. -/
def andThen {α : Type} (r : List Effect × Outcome Service)
    (k : Service → List Effect × Outcome α) : List Effect × Outcome α :=
  match r with
  | (tr, Outcome.ok svc) => (tr ++ (k svc).1, (k svc).2)
  | (tr, Outcome.exit c) => (tr, Outcome.exit c)
  | (tr, Outcome.raise e) => (tr, Outcome.raise e)

/-- Numeric value of a decimal digit character. -/
def digitVal (c : Char) : Option Nat :=
  if c.isDigit then some (c.toNat - 48) else none

/-- Match exactly four digits (the CPython `_strptime` pattern for `%Y`). -/
def parseYear4 : List Char → Option (Nat × List Char)
  | a :: b :: c :: d :: rest =>
    match digitVal a, digitVal b, digitVal c, digitVal d with
    | some w, some x, some y, some z => some ((((w * 10 + x) * 10 + y) * 10 + z), rest)
    | _, _, _, _ => none
  | _ => none

/-- Alternatives (in CPython regex order) for `%m`: `1[0-2]|0[1-9]|[1-9]`. -/
def monthAlts : List Char → List (Nat × List Char)
  | [] => []
  | c1 :: rest1 =>
    let one : List (Nat × List Char) :=
      match digitVal c1 with
      | some v => if 1 ≤ v then [(v, rest1)] else []
      | none => []
    match rest1 with
    | [] => one
    | c2 :: rest2 =>
      let double : List (Nat × List Char) :=
        match digitVal c1, digitVal c2 with
        | some v1, some v2 =>
          if v1 = 1 ∧ v2 ≤ 2 then [(10 + v2, rest2)]
          else if v1 = 0 ∧ 1 ≤ v2 then [(v2, rest2)]
          else []
        | _, _ => []
      double ++ one

/-- Alternatives for `%d`: `3[01]|[12][0-9]|0[1-9]|[1-9]`. -/
def dayAlts : List Char → List (Nat × List Char)
  | [] => []
  | c1 :: rest1 =>
    let one : List (Nat × List Char) :=
      match digitVal c1 with
      | some v => if 1 ≤ v then [(v, rest1)] else []
      | none => []
    match rest1 with
    | [] => one
    | c2 :: rest2 =>
      let double : List (Nat × List Char) :=
        match digitVal c1, digitVal c2 with
        | some v1, some v2 =>
          if v1 = 3 ∧ v2 ≤ 1 then [(30 + v2, rest2)]
          else if v1 = 1 ∨ v1 = 2 then [(10 * v1 + v2, rest2)]
          else if v1 = 0 ∧ 1 ≤ v2 then [(v2, rest2)]
          else []
        | _, _ => []
      double ++ one

/-- Alternatives for `%H`: `2[0-3]|[01][0-9]|[0-9]`. -/
def hourAlts : List Char → List (Nat × List Char)
  | [] => []
  | c1 :: rest1 =>
    let one : List (Nat × List Char) :=
      match digitVal c1 with
      | some v => [(v, rest1)]
      | none => []
    match rest1 with
    | [] => one
    | c2 :: rest2 =>
      let double : List (Nat × List Char) :=
        match digitVal c1, digitVal c2 with
        | some v1, some v2 =>
          if v1 = 2 ∧ v2 ≤ 3 then [(20 + v2, rest2)]
          else if v1 ≤ 1 then [(10 * v1 + v2, rest2)]
          else []
        | _, _ => []
      double ++ one

/-- Alternatives for `%M`: `[0-5][0-9]|[0-9]`. -/
def minuteAlts : List Char → List (Nat × List Char)
  | [] => []
  | c1 :: rest1 =>
    let one : List (Nat × List Char) :=
      match digitVal c1 with
      | some v => [(v, rest1)]
      | none => []
    match rest1 with
    | [] => one
    | c2 :: rest2 =>
      let double : List (Nat × List Char) :=
        match digitVal c1, digitVal c2 with
        | some v1, some v2 =>
          if v1 ≤ 5 then [(10 * v1 + v2, rest2)]
          else []
        | _, _ => []
      double ++ one

/-- Try each alternative in order, taking the first whose continuation
succeeds (regex backtracking). -/
def tryAlts {α : Type} : List (Nat × List Char) → (Nat → List Char → Option α) → Option α
  | [], _ => none
  | (v, rest) :: more, k =>
    match k v rest with
    | some r => some r
    | none => tryAlts more k

/-- Consume one literal character. -/
def lit (c : Char) : List Char → Option (List Char)
  | [] => none
  | x :: rest => if x = c then some rest else none

/-- Gregorian leap year, as used by `datetime`. -/
def isLeap (y : Nat) : Bool :=
  (y % 4 == 0) && (y % 100 != 0 || y % 400 == 0)

def daysInMonth (y m : Nat) : Nat :=
  if m = 2 then (if isLeap y then 29 else 28)
  else if m = 4 ∨ m = 6 ∨ m = 9 ∨ m = 11 then 30
  else 31

/-- The constructor validation `datetime(y, m, d, h, mi)` performs after the
regex match: year within range and day within the month.  (Month, hour and
minute ranges are already enforced by the regex alternatives.) -/
def dtValid (y m d : Nat) : Bool :=
  (1 ≤ y) && (1 ≤ d) && (d ≤ daysInMonth y m)

/-- Shallow model of `datetime.strptime(s, "%Y-%m-%d %H:%M")`: `none` models
the `ValueError` raised on a non-matching or calendar-invalid string; the
whole input must be consumed (`unconverted data remains` otherwise). -/
def strptimeYmdHM (s : String) : Option SimpleDT :=
  match parseYear4 s.toList with
  | none => none
  | some (y, r1) =>
    match lit '-' r1 with
    | none => none
    | some r2 =>
      tryAlts (monthAlts r2) (fun m r3 =>
        match lit '-' r3 with
        | none => none
        | some r4 =>
          tryAlts (dayAlts r4) (fun d r5 =>
            match lit ' ' r5 with
            | none => none
            | some r6 =>
              tryAlts (hourAlts r6) (fun h r7 =>
                match lit ':' r7 with
                | none => none
                | some r8 =>
                  tryAlts (minuteAlts r8) (fun mi r9 =>
                    match r9 with
                    | [] => if dtValid y m d then some ⟨y, m, d, h, mi⟩ else none
                    | _ :: _ => none))))

/-- Python `" " in start` (a single-character substring test). -/
def containsSpace (s : String) : Bool := s.toList.contains ' '

/-- Fixed UTC offset (in minutes) of `LOCAL_TZ = ZoneInfo("Asia/Singapore")`:
+08:00, with no daylight saving. -/
def localOffsetMinutes : Int := 480

namespace Gcal

def notAuthMsg : String := "Error: Calendar not authenticated. Run OAuth setup first."

/-- `scripts/gcal.py` `get_service`: check the token file exists, build the
credential from the five fields, refresh (and rewrite only the `token`
field of the file) when expired with a truthy refresh token, then build the
`calendar`/`v3` service. -/
def get_service (env : AuthEnv) : List Effect × Outcome Service :=
  match env.tokenFile with
  | none => ([Effect.printErr notAuthMsg], Outcome.exit 1)
  | some token_data =>
    let creds := Credentials.ofTokenData token_data
    if env.expired && pyTruthy creds.refresh_token then
      match env.refresh with
      | RefreshResult.err e => ([Effect.refreshCall], Outcome.raise e)
      | RefreshResult.ok nt =>
        ([Effect.refreshCall, Effect.writeToken { token_data with token := some nt }],
         Outcome.ok ⟨"calendar", "v3", { creds with token := some nt }⟩)
    else
      ([], Outcome.ok ⟨"calendar", "v3", creds⟩)

/-- Environment of `create_event`: the auth environment plus what the
provider answers to `events().insert` (`result.get("htmlLink")`). -/
structure CalendarEnv where
  auth : AuthEnv
  insertLink : Option String
  deriving Repr, DecidableEq

/-- Python f-string interpolation of an optional value: `None` prints as
the literal text `None`. -/
def optToStr : Option String → String
  | some s => s
  | none => "None"

/-- Second stderr line printed on a date-parse failure (verbatim). -/
def dateFormatHint : String := "Format: YYYY-MM-DD HH:MM or YYYY-MM-DD"

/-- First stderr line printed on a date-parse failure.  The source prints
`f"Error parsing date: {e}"`; the runtime-supplied `ValueError` detail text
after the colon is library wording and is elided here. -/
def dateErrLine : String := "Error parsing date"

/-- `scripts/gcal.py` `create_event`.  Faithful to the source order: the
service is obtained (with any refresh side effects) before the dates are
parsed; a string containing a space selects the timed branch and both
strings are then parsed with `strptime("%Y-%m-%d %H:%M")` and tagged with
the fixed local zone; otherwise both strings are submitted verbatim as
all-day `date` fields with no parsing and no time zone. -/
def create_event (env : CalendarEnv) (title start stop description : String) :
    List Effect × Outcome Unit :=
  andThen (get_service env.auth) (fun _svc =>
    let payload? : Option EventPayload :=
      if containsSpace start then
        match strptimeYmdHM start, strptimeYmdHM stop with
        | some sdt, some edt =>
          some ⟨title, PayloadTime.dateTime sdt localOffsetMinutes,
                PayloadTime.dateTime edt localOffsetMinutes, none⟩
        | _, _ => none
      else
        some ⟨title, PayloadTime.date start, PayloadTime.date stop, none⟩
    match payload? with
    | none =>
      ([Effect.printErr dateErrLine, Effect.printErr dateFormatHint], Outcome.exit 1)
    | some ev0 =>
      let ev := if description = "" then ev0 else { ev0 with description := some description }
      ([Effect.insertEvent ev,
        Effect.printOut ("Event created: " ++ optToStr env.insertLink)],
       Outcome.ok ()))

end Gcal

/-- An ISO timestamp with a zone designator, as obtained by
`datetime.fromisoformat` on an aware string: the absolute instant (minutes
since an epoch, in UTC) together with the rendered UTC offset (minutes). -/
structure AwareDT where
  instantMinutes : Int
  offsetMinutes : Int
  deriving Repr, DecidableEq

/-- `dt.astimezone(tz)`: same instant, re-expressed in the target zone. -/
def astimezone (t : AwareDT) (off : Int) : AwareDT :=
  ⟨t.instantMinutes, off⟩

/-- Minutes past midnight on the wall clock of the timestamp's own zone. -/
def wallMinutes (t : AwareDT) : Nat :=
  ((t.instantMinutes + t.offsetMinutes) % 1440).toNat

/-- Two-digit zero-padded rendering, as `strftime` uses. -/
def twoDigits (n : Nat) : String :=
  if n < 10 then "0" ++ toString n else toString n

/-- `dt.strftime("%H:%M")`. -/
def strftimeHM (t : AwareDT) : String :=
  twoDigits (wallMinutes t / 60) ++ ":" ++ twoDigits (wallMinutes t % 60)

/-- A `start`/`end` field of a fetched event: a `dateTime` string (which
contains a `T`) parses to an aware timestamp, a `date` string does not. -/
inductive EvTime where
  | timed (t : AwareDT)
  | allday (d : String)
  deriving Repr, DecidableEq

/-- A fetched calendar event, with the optional fields read via `.get`. -/
structure GEvent where
  start : EvTime
  stop : EvTime
  summary : Option String
  location : Option String
  deriving Repr, DecidableEq

def summaryOrDefault (e : GEvent) : String :=
  match e.summary with
  | some s => s
  | none => "No title"

/-- `(f" @ {location}" if location else "")` with `location = get(..., "")`. -/
def locationSuffix (e : GEvent) : String :=
  match e.location with
  | some l => if l = "" then "" else " @ " ++ l
  | none => ""

/-- `scripts/gcal.py` `format_event`.  When the start string has a time
component both endpoints are converted to `LOCAL_TZ` for display; otherwise
the fixed text `All day` is shown and nothing is converted.  The source
path where the start is timed but the end is date-only would build a naive
datetime whose conversion depends on the host system zone; that
environment-dependent path is left out of the model (`none`). -/
def format_event (e : GEvent) : Option String :=
  match e.start, e.stop with
  | EvTime.timed s, EvTime.timed en =>
    some ("  " ++ (strftimeHM (astimezone s localOffsetMinutes) ++ " - " ++
           strftimeHM (astimezone en localOffsetMinutes)) ++ ": " ++
          summaryOrDefault e ++ locationSuffix e)
  | EvTime.allday _, _ =>
    some ("  " ++ "All day" ++ ": " ++ summaryOrDefault e ++ locationSuffix e)
  | EvTime.timed _, EvTime.allday _ => none

namespace Gmail

def notAuthMsg : String := "Error: Gmail not authenticated. Run OAuth setup first."

/-- `scripts/gmail.py` `get_service`: identical credential logic, building
the `gmail`/`v1` service. -/
def get_service (env : AuthEnv) : List Effect × Outcome Service :=
  match env.tokenFile with
  | none => ([Effect.printErr notAuthMsg], Outcome.exit 1)
  | some token_data =>
    let creds := Credentials.ofTokenData token_data
    if env.expired && pyTruthy creds.refresh_token then
      match env.refresh with
      | RefreshResult.err e => ([Effect.refreshCall], Outcome.raise e)
      | RefreshResult.ok nt =>
        ([Effect.refreshCall, Effect.writeToken { token_data with token := some nt }],
         Outcome.ok ⟨"gmail", "v1", { creds with token := some nt }⟩)
    else
      ([], Outcome.ok ⟨"gmail", "v1", creds⟩)

/-- `{h["name"]: h["value"] for h in headers}.get(k, dflt)` — a duplicate
name later in the list overwrites an earlier one. -/
def headerGet (hs : List (String × String)) (k dflt : String) : String :=
  match (hs.filter (fun h => h.1 == k)).getLast? with
  | some h => h.2
  | none => dflt

/-- Metadata returned by the per-message `messages().get(format="metadata")`
fetch: the header list and `full.get("snippet", "")`. -/
structure MetaMessage where
  headers : List (String × String)
  snippet : Option String
  deriving Repr, DecidableEq

def eqBar : String := String.mk (List.replicate 60 '=')

def dashBar : String := String.mk (List.replicate 40 '-')

/-- The six lines printed for one listed message, after its metadata fetch. -/
def msgBlock (fetch : String → MetaMessage) (id : String) : List Effect :=
  let full := fetch id
  let snippet := (match full.snippet with | some s => s | none => "").take 80
  [Effect.getMessage id,
   Effect.printOut ("ID: " ++ id),
   Effect.printOut ("From: " ++ headerGet full.headers "From" "N/A"),
   Effect.printOut ("Subject: " ++ headerGet full.headers "Subject" "N/A"),
   Effect.printOut ("Date: " ++ headerGet full.headers "Date" "N/A"),
   Effect.printOut ("Preview: " ++ snippet ++ "..."),
   Effect.printOut dashBar]

/-- `scripts/gmail.py` `list_emails`.  `listed` is the provider's response
field `results.get("messages", [])` (a list of message ids; `none` models an
absent key); `fetch` is the provider's answer to each metadata fetch. -/
def list_emails (fetch : String → MetaMessage) (auth : AuthEnv)
    (listed : Option (List String)) (unread_only : Bool) (limit : Nat) :
    List Effect × Outcome Unit :=
  andThen (get_service auth) (fun _svc =>
    let query := if unread_only then "is:unread" else ""
    let messages := match listed with | some l => l | none => []
    if messages.isEmpty then
      ([Effect.listMessages query limit, Effect.printOut "No emails found."],
       Outcome.ok ())
    else
      ([Effect.listMessages query limit,
        Effect.printOut eqBar,
        Effect.printOut ((if unread_only then "Unread " else "") ++
          "Emails (showing " ++ toString messages.length ++ ")"),
        Effect.printOut (eqBar ++ "\n")] ++
       (messages.map (msgBlock fetch)).flatten,
       Outcome.ok ()))

/-- One MIME part of a fetched message: `part["mimeType"]` and
`part["body"].get("data")`. -/
structure MsgPart where
  mimeType : String
  data : Option String
  deriving Repr, DecidableEq

/-- The payload of a full message fetch.  `body` is `none` when the `body`
key is absent, otherwise `some` of `payload["body"].get("data")`; `parts`
is `none` when the `parts` key is absent. -/
structure MsgPayload where
  headers : List (String × String)
  body : Option (Option String)
  parts : Option (List MsgPart)
  deriving Repr, DecidableEq

/-- A full message: payload plus `msg.get("snippet", ...)` source field. -/
structure Message where
  payload : MsgPayload
  snippet : Option String
  deriving Repr, DecidableEq

/-- The condition `"body" in payload and payload["body"].get("data")`: the
direct body data, when present and truthy (non-empty). -/
def directData (p : MsgPayload) : Option String :=
  match p.body with
  | some (some d) => if d = "" then none else some d
  | _ => none

/-- The `for part in payload["parts"]` scan: the first part whose mimeType
is `text/plain` and whose body data is truthy. -/
def firstPlainData : List MsgPart → Option String
  | [] => none
  | part :: rest =>
    if part.mimeType == "text/plain" then
      match part.data with
      | some d => if d = "" then firstPlainData rest else some d
      | none => firstPlainData rest
    else firstPlainData rest

/-- The body-extraction block of `read_email` (`body = ""` initially; the
`elif "parts" in payload` arm runs only when the direct data is falsy).
`dec` models `base64.urlsafe_b64decode(...).decode("utf-8")`. -/
def extractBody (dec : String → String) (p : MsgPayload) : String :=
  match directData p with
  | some d => dec d
  | none =>
    match p.parts with
    | some parts =>
      match firstPlainData parts with
      | some d => dec d
      | none => ""
    | none => ""

/-- Python `a or b` on strings: `b` when `a` is empty. -/
def pyOr (a b : String) : String := if a = "" then b else a

/-- `msg.get("snippet", "No body content")`: the default applies only when
the `snippet` key is absent, not when it holds the empty string. -/
def snippetOrDefault (msg : Message) : String :=
  match msg.snippet with
  | some s => s
  | none => "No body content"

/-- The final line of `read_email`:
`print(body or msg.get("snippet", "No body content"))`. -/
def readBodyLine (dec : String → String) (msg : Message) : String :=
  pyOr (extractBody dec msg.payload) (snippetOrDefault msg)

/-- `scripts/gmail.py` `read_email`: fetch the full message, print the four
header lines, then print the extracted body with its fallbacks. -/
def read_email (dec : String → String) (auth : AuthEnv) (msg : Message)
    (message_id : String) : List Effect × Outcome Unit :=
  andThen (get_service auth) (fun _svc =>
    ([Effect.getMessage message_id,
      Effect.printOut eqBar,
      Effect.printOut ("From: " ++ headerGet msg.payload.headers "From" "N/A"),
      Effect.printOut ("To: " ++ headerGet msg.payload.headers "To" "N/A"),
      Effect.printOut ("Subject: " ++ headerGet msg.payload.headers "Subject" "N/A"),
      Effect.printOut ("Date: " ++ headerGet msg.payload.headers "Date" "N/A"),
      Effect.printOut (eqBar ++ "\n"),
      Effect.printOut (readBodyLine dec msg)],
     Outcome.ok ()))

end Gmail

/-! ## Shared helper lemmas -/

/-- Complete enumeration of the effect traces `Gcal.get_service` can emit. -/
theorem gcal_trace_cases (env : AuthEnv) :
    (Gcal.get_service env).1 = [Effect.printErr Gcal.notAuthMsg]
    ∨ (Gcal.get_service env).1 = []
    ∨ (Gcal.get_service env).1 = [Effect.refreshCall]
    ∨ ∃ d, (Gcal.get_service env).1 = [Effect.refreshCall, Effect.writeToken d] := by
  obtain ⟨tf, ex, rr⟩ := env
  cases tf with
  | none => simp [Gcal.get_service]
  | some d =>
    cases hb : (ex && pyTruthy (Credentials.ofTokenData d).refresh_token) with
    | false => simp [Gcal.get_service, hb]
    | true => cases rr <;> simp [Gcal.get_service, hb]

/-- Complete enumeration of the effect traces `Gmail.get_service` can emit. -/
theorem gmail_trace_cases (env : AuthEnv) :
    (Gmail.get_service env).1 = [Effect.printErr Gmail.notAuthMsg]
    ∨ (Gmail.get_service env).1 = []
    ∨ (Gmail.get_service env).1 = [Effect.refreshCall]
    ∨ ∃ d, (Gmail.get_service env).1 = [Effect.refreshCall, Effect.writeToken d] := by
  obtain ⟨tf, ex, rr⟩ := env
  cases tf with
  | none => simp [Gmail.get_service]
  | some d =>
    cases hb : (ex && pyTruthy (Credentials.ofTokenData d).refresh_token) with
    | false => simp [Gmail.get_service, hb]
    | true => cases rr <;> simp [Gmail.get_service, hb]

/-- A shared concrete token record used by witnesses. -/
def tok0 : TokenData :=
  ⟨some "old-access", some "rt", some "uri", some "cid", some "sec"⟩

/-- Auth environment: token file present, access token not expired. -/
def envFreshAuth : AuthEnv := ⟨some tok0, false, RefreshResult.ok "new-access"⟩

/-- Auth environment: token file present, access token expired, refresh succeeds. -/
def envExpiredAuth : AuthEnv := ⟨some tok0, true, RefreshResult.ok "new-access"⟩

/-! ## C5 — missing token file -/

/-- C5: when the token file is absent, both scripts print the stderr message
instructing the user to run the external OAuth setup and exit with status 1,
and the whole-command traces show no API call and no file write (the single
stderr print is the only effect), for `create` and for mail listing alike. -/
theorem c5_theorem (env : AuthEnv) (h : env.tokenFile = none) :
    Gcal.get_service env = ([Effect.printErr Gcal.notAuthMsg], Outcome.exit 1)
    ∧ Gmail.get_service env = ([Effect.printErr Gmail.notAuthMsg], Outcome.exit 1)
    ∧ (∀ (cenv : Gcal.CalendarEnv), cenv.auth = env →
        ∀ t s e dsc, Gcal.create_event cenv t s e dsc
          = ([Effect.printErr Gcal.notAuthMsg], Outcome.exit 1))
    ∧ (∀ fetch listed unread limit, Gmail.list_emails fetch env listed unread limit
        = ([Effect.printErr Gmail.notAuthMsg], Outcome.exit 1)) := by
  have hg : Gcal.get_service env = ([Effect.printErr Gcal.notAuthMsg], Outcome.exit 1) := by
    simp [Gcal.get_service, h]
  have hm : Gmail.get_service env = ([Effect.printErr Gmail.notAuthMsg], Outcome.exit 1) := by
    simp [Gmail.get_service, h]
  refine ⟨hg, hm, ?_, ?_⟩
  · intro cenv hc t s e dsc
    simp [Gcal.create_event, hc, hg, andThen]
  · intro fetch listed unread limit
    simp [Gmail.list_emails, hm, andThen]

/-- C5 witness. -/
theorem c5_witness :
    Gcal.get_service ⟨none, false, RefreshResult.ok "t"⟩
      = ([Effect.printErr Gcal.notAuthMsg], Outcome.exit 1)
    ∧ Gmail.get_service ⟨none, false, RefreshResult.ok "t"⟩
      = ([Effect.printErr Gmail.notAuthMsg], Outcome.exit 1) :=
  ⟨(c5_theorem ⟨none, false, RefreshResult.ok "t"⟩ rfl).1,
   (c5_theorem ⟨none, false, RefreshResult.ok "t"⟩ rfl).2.1⟩

/-! ## C2 — refresh rewrites only the `token` field -/

/-- C2: with an expired access token and a non-empty refresh token, both
scripts perform exactly one refresh call and exactly one file write, and the
written record is the loaded one with only `token` replaced, so
`refresh_token`, `token_uri`, `client_id` and `client_secret` survive. -/
theorem c2_theorem (env : AuthEnv) (d : TokenData) (rt nt : String)
    (hfile : env.tokenFile = some d) (hexp : env.expired = true)
    (hrt : d.refresh_token = some rt) (hne : rt ≠ "")
    (hok : env.refresh = RefreshResult.ok nt) :
    Gcal.get_service env
      = ([Effect.refreshCall, Effect.writeToken { d with token := some nt }],
         Outcome.ok ⟨"calendar", "v3", { Credentials.ofTokenData d with token := some nt }⟩)
    ∧ Gmail.get_service env
      = ([Effect.refreshCall, Effect.writeToken { d with token := some nt }],
         Outcome.ok ⟨"gmail", "v1", { Credentials.ofTokenData d with token := some nt }⟩)
    ∧ ({ d with token := some nt }).refresh_token = d.refresh_token
    ∧ ({ d with token := some nt }).token_uri = d.token_uri
    ∧ ({ d with token := some nt }).client_id = d.client_id
    ∧ ({ d with token := some nt }).client_secret = d.client_secret := by
  have hcond : (env.expired && pyTruthy (Credentials.ofTokenData d).refresh_token) = true := by
    simp [hexp, pyTruthy, Credentials.ofTokenData, hrt, hne]
  refine ⟨?_, ?_, rfl, rfl, rfl, rfl⟩
  · simp [Gcal.get_service, hfile, hcond, hok]
  · simp [Gmail.get_service, hfile, hcond, hok]

/-- C2 witness. -/
theorem c2_witness :
    Gcal.get_service envExpiredAuth
      = ([Effect.refreshCall, Effect.writeToken { tok0 with token := some "new-access" }],
         Outcome.ok ⟨"calendar", "v3",
           { Credentials.ofTokenData tok0 with token := some "new-access" }⟩)
    ∧ ({ tok0 with token := some "new-access" }).refresh_token = tok0.refresh_token :=
  ⟨(c2_theorem envExpiredAuth tok0 "rt" "new-access" rfl rfl rfl (by decide) rfl).1,
   (c2_theorem envExpiredAuth tok0 "rt" "new-access" rfl rfl rfl (by decide) rfl).2.2.1⟩

/-! ## C3 — no refresh and no write when not expired -/

def isWriteEffect : Effect → Bool
  | Effect.writeToken _ => true
  | _ => false

/-- C3: with a non-expired access token both scripts make zero refresh calls
and zero file writes (the trace is empty); and over all environments the
token file is written at most once per invocation, and only in traces that
also contain the refresh call. -/
theorem c3_theorem :
    (∀ (env : AuthEnv) (d : TokenData), env.tokenFile = some d → env.expired = false →
      Gcal.get_service env = ([], Outcome.ok ⟨"calendar", "v3", Credentials.ofTokenData d⟩)
      ∧ Gmail.get_service env = ([], Outcome.ok ⟨"gmail", "v1", Credentials.ofTokenData d⟩))
    ∧ (∀ env : AuthEnv,
        ((Gcal.get_service env).1.countP isWriteEffect ≤ 1
          ∧ ((Gcal.get_service env).1.countP isWriteEffect ≠ 0 →
              Effect.refreshCall ∈ (Gcal.get_service env).1))
        ∧ ((Gmail.get_service env).1.countP isWriteEffect ≤ 1
          ∧ ((Gmail.get_service env).1.countP isWriteEffect ≠ 0 →
              Effect.refreshCall ∈ (Gmail.get_service env).1))) := by
  constructor
  · intro env d h1 h2
    constructor
    · simp [Gcal.get_service, h1, h2]
    · simp [Gmail.get_service, h1, h2]
  · intro env
    constructor
    · rcases gcal_trace_cases env with h | h | h | ⟨d, h⟩ <;>
        rw [h] <;> simp [List.countP, List.countP.go, isWriteEffect]
    · rcases gmail_trace_cases env with h | h | h | ⟨d, h⟩ <;>
        rw [h] <;> simp [List.countP, List.countP.go, isWriteEffect]

/-- C3 witness. -/
theorem c3_witness :
    Gcal.get_service envFreshAuth
      = ([], Outcome.ok ⟨"calendar", "v3", Credentials.ofTokenData tok0⟩)
    ∧ (Gcal.get_service envFreshAuth).1.countP isWriteEffect ≤ 1 :=
  ⟨(c3_theorem.1 envFreshAuth tok0 rfl rfl).1, (c3_theorem.2 envFreshAuth).1.1⟩

/-! ## C4 — valid credential or failure -/

/-- A token record whose access token is expired and which carries no
refresh token. -/
def tokNoRefresh : TokenData := ⟨some "stale", none, some "uri", some "cid", some "sec"⟩

def envExpiredNoRefresh : AuthEnv := ⟨some tokNoRefresh, true, RefreshResult.ok "unused"⟩

/-- C4 counterexample: with an expired access token and no refresh token,
`get_service` neither refreshes nor fails — it returns the service built on
the still-expired credential (empty effect trace, `Outcome.ok`), so the
Credential Manager does not always "produce a valid, non-expired credential
or fail". -/
theorem c4_counterexample :
    envExpiredNoRefresh.expired = true
    ∧ Gcal.get_service envExpiredNoRefresh
        = ([], Outcome.ok ⟨"calendar", "v3", Credentials.ofTokenData tokNoRefresh⟩)
    ∧ Gmail.get_service envExpiredNoRefresh
        = ([], Outcome.ok ⟨"gmail", "v1", Credentials.ofTokenData tokNoRefresh⟩) := by
  decide

/-- C4 (amended): whenever a non-empty refresh token is present, the
Credential Manager produces a refreshed (non-expired) credential or fails —
a rejected refresh call propagates as an uncaught error, never silently
swallowed; but when the token is expired and no usable refresh token exists,
the expired credential is returned as if valid. -/
theorem c4_theorem (env : AuthEnv) (d : TokenData)
    (hfile : env.tokenFile = some d) :
    (∀ e, env.expired = true → pyTruthy d.refresh_token = true →
       env.refresh = RefreshResult.err e →
       (Gcal.get_service env).2 = Outcome.raise e
       ∧ (Gmail.get_service env).2 = Outcome.raise e)
    ∧ (∀ nt, env.expired = true → pyTruthy d.refresh_token = true →
       env.refresh = RefreshResult.ok nt →
       (Gcal.get_service env).2
         = Outcome.ok ⟨"calendar", "v3", { Credentials.ofTokenData d with token := some nt }⟩
       ∧ (Gmail.get_service env).2
         = Outcome.ok ⟨"gmail", "v1", { Credentials.ofTokenData d with token := some nt }⟩)
    ∧ (pyTruthy d.refresh_token = false →
       (Gcal.get_service env).2 = Outcome.ok ⟨"calendar", "v3", Credentials.ofTokenData d⟩
       ∧ (Gmail.get_service env).2 = Outcome.ok ⟨"gmail", "v1", Credentials.ofTokenData d⟩) := by
  refine ⟨?_, ?_, ?_⟩
  · intro e hexp htr hrr
    have hcond : (env.expired && pyTruthy (Credentials.ofTokenData d).refresh_token) = true := by
      simp [hexp, Credentials.ofTokenData, htr]
    constructor
    · simp [Gcal.get_service, hfile, hcond, hrr]
    · simp [Gmail.get_service, hfile, hcond, hrr]
  · intro nt hexp htr hrr
    have hcond : (env.expired && pyTruthy (Credentials.ofTokenData d).refresh_token) = true := by
      simp [hexp, Credentials.ofTokenData, htr]
    constructor
    · simp [Gcal.get_service, hfile, hcond, hrr]
    · simp [Gmail.get_service, hfile, hcond, hrr]
  · intro htr
    have hcond : (env.expired && pyTruthy (Credentials.ofTokenData d).refresh_token) = false := by
      simp [Credentials.ofTokenData, htr]
    constructor
    · simp [Gcal.get_service, hfile, hcond]
    · simp [Gmail.get_service, hfile, hcond]

/-- C4 witness: a rejected refresh propagates as an uncaught error. -/
theorem c4_witness :
    (Gcal.get_service ⟨some tok0, true, RefreshResult.err "invalid_grant"⟩).2
      = Outcome.raise "invalid_grant" :=
  ((c4_theorem ⟨some tok0, true, RefreshResult.err "invalid_grant"⟩ tok0 rfl).1
    "invalid_grant" rfl (by decide) rfl).1

/-! ## C10 — the two credential managers are the same function -/

/-- Forget the service identity, keeping the credential-level outcome. -/
def credOutcome : Outcome Service → Outcome Credentials
  | Outcome.ok s => Outcome.ok s.creds
  | Outcome.exit c => Outcome.exit c
  | Outcome.raise e => Outcome.raise e

/-- C10: over every token-file content, both scripts run the same existence
check (exit 1 with a not-authenticated stderr line when the file is absent),
and when the file is present they emit identical effect traces (same refresh
decision from the same five-field credential, same single-field file
rewrite) and credential-identical outcomes — differing only in the service
each builds (`calendar`/`v3` vs `gmail`/`v1`). -/
theorem c10_theorem (env : AuthEnv) :
    (env.tokenFile = none →
      Gcal.get_service env = ([Effect.printErr Gcal.notAuthMsg], Outcome.exit 1)
      ∧ Gmail.get_service env = ([Effect.printErr Gmail.notAuthMsg], Outcome.exit 1))
    ∧ (∀ d, env.tokenFile = some d →
      (Gcal.get_service env).1 = (Gmail.get_service env).1
      ∧ credOutcome (Gcal.get_service env).2 = credOutcome (Gmail.get_service env).2
      ∧ (∀ s, (Gcal.get_service env).2 = Outcome.ok s → s.api = "calendar" ∧ s.version = "v3")
      ∧ (∀ s, (Gmail.get_service env).2 = Outcome.ok s → s.api = "gmail" ∧ s.version = "v1")) := by
  constructor
  · intro h
    constructor
    · simp [Gcal.get_service, h]
    · simp [Gmail.get_service, h]
  · intro d hd
    cases hb : (env.expired && pyTruthy (Credentials.ofTokenData d).refresh_token) with
    | false =>
      refine ⟨?_, ?_, ?_, ?_⟩ <;>
        simp [Gcal.get_service, Gmail.get_service, hd, hb, credOutcome]
    | true =>
      cases hr : env.refresh with
      | ok nt =>
        refine ⟨?_, ?_, ?_, ?_⟩ <;>
          simp [Gcal.get_service, Gmail.get_service, hd, hb, hr, credOutcome]
      | err e =>
        refine ⟨?_, ?_, ?_, ?_⟩ <;>
          simp [Gcal.get_service, Gmail.get_service, hd, hb, hr, credOutcome]

/-- C10 witness. -/
theorem c10_witness :
    (Gcal.get_service envFreshAuth).1 = (Gmail.get_service envFreshAuth).1
    ∧ credOutcome (Gcal.get_service envFreshAuth).2
      = credOutcome (Gmail.get_service envFreshAuth).2 :=
  ⟨((c10_theorem envFreshAuth).2 tok0 rfl).1, ((c10_theorem envFreshAuth).2 tok0 rfl).2.1⟩

/-! ## C1 — malformed create dates -/

/-- C1 counterexample, in two parts.  First: with an expired token record
the malformed timed input `"2024-13-01 09:00"` still triggers the refresh
network call, because `create_event` authenticates before parsing — so "no
network call" fails.  Second: the malformed date-only input `"2024-13-01"`
(no space) is never parsed locally: the event is submitted to the provider,
no date-parse error is reported and the process does not exit with 1. -/
theorem c1_counterexample :
    (Effect.refreshCall
        ∈ (Gcal.create_event ⟨envExpiredAuth, some "L"⟩ "T" "2024-13-01 09:00"
            "2024-13-01 10:00" "").1
      ∧ (Gcal.create_event ⟨envExpiredAuth, some "L"⟩ "T" "2024-13-01 09:00"
            "2024-13-01 10:00" "").2 = Outcome.exit 1)
    ∧ ((Gcal.create_event ⟨envFreshAuth, some "L"⟩ "T" "2024-13-01" "2024-13-02" "").2
          = Outcome.ok ()
      ∧ Effect.insertEvent ⟨"T", PayloadTime.date "2024-13-01",
            PayloadTime.date "2024-13-02", none⟩
          ∈ (Gcal.create_event ⟨envFreshAuth, some "L"⟩ "T" "2024-13-01" "2024-13-02" "").1
      ∧ Effect.printErr Gcal.dateErrLine
          ∉ (Gcal.create_event ⟨envFreshAuth, some "L"⟩ "T" "2024-13-01" "2024-13-02" "").1) := by
  decide

/-- No event insertion ever happens inside `get_service` itself. -/
theorem gcal_auth_no_insert (env : AuthEnv) (p : EventPayload) :
    Effect.insertEvent p ∉ (Gcal.get_service env).1 := by
  rcases gcal_trace_cases env with h | h | h | ⟨d, h⟩ <;> rw [h] <;> simp

/-- C1 (amended): for a start string in the timed form (it contains a space)
where start or end fails `strptime("%Y-%m-%d %H:%M")`, a successfully
authenticated invocation reports the date-parse error and the format hint on
stderr, exits with status 1, and performs no event-insert API call — though
the credential refresh call may already have happened, since authentication
precedes parsing, and date-only strings are not validated locally at all. -/
theorem c1_theorem (env : Gcal.CalendarEnv) (svc : Service)
    (hok : (Gcal.get_service env.auth).2 = Outcome.ok svc)
    (title start stop descr : String)
    (hsp : containsSpace start = true)
    (hbad : strptimeYmdHM start = none ∨ strptimeYmdHM stop = none) :
    Gcal.create_event env title start stop descr
      = ((Gcal.get_service env.auth).1
          ++ [Effect.printErr Gcal.dateErrLine, Effect.printErr Gcal.dateFormatHint],
         Outcome.exit 1)
    ∧ ∀ p, Effect.insertEvent p ∉ (Gcal.create_event env title start stop descr).1 := by
  have hpair : Gcal.get_service env.auth
      = ((Gcal.get_service env.auth).1, (Gcal.get_service env.auth).2) := rfl
  have heq : Gcal.create_event env title start stop descr
      = ((Gcal.get_service env.auth).1
          ++ [Effect.printErr Gcal.dateErrLine, Effect.printErr Gcal.dateFormatHint],
         Outcome.exit 1) := by
    unfold Gcal.create_event
    rw [hpair, hok]
    rcases hbad with hb | hb
    · cases h2 : strptimeYmdHM stop <;> simp [andThen, hsp, hb, h2]
    · cases h2 : strptimeYmdHM start <;> simp [andThen, hsp, hb, h2]
  refine ⟨heq, ?_⟩
  intro p
  rw [heq]
  simp only [List.mem_append, List.mem_cons, List.not_mem_nil, or_false]
  rintro (h | h | h)
  · exact gcal_auth_no_insert env.auth p h
  · exact Effect.noConfusion h
  · exact Effect.noConfusion h

/-- C1 witness for the amended claim. -/
theorem c1_witness :
    Gcal.create_event ⟨envFreshAuth, some "L"⟩ "T" "2024-13-01 09:00" "2024-13-01 10:00" ""
      = ((Gcal.get_service envFreshAuth).1
          ++ [Effect.printErr Gcal.dateErrLine, Effect.printErr Gcal.dateFormatHint],
         Outcome.exit 1) :=
  (c1_theorem ⟨envFreshAuth, some "L"⟩ ⟨"calendar", "v3", Credentials.ofTokenData tok0⟩
    (by decide) "T" "2024-13-01 09:00" "2024-13-01 10:00" "" (by decide)
    (Or.inl (by decide))).1

/-! ## C7 — timed vs all-day payload shapes -/

/-- `if description: event["description"] = description`. -/
def pyDescription (d : String) : Option String :=
  if d = "" then none else some d

/-- C7: under a successfully authenticated invocation, when start and end
parse in the timed form `YYYY-MM-DD HH:MM` the submitted payload carries the
parsed wall-clock fields tagged with the fixed configured zone offset
(+08:00); when the start has no time component, the payload is an all-day
event whose `date` fields are the given strings verbatim, with no time zone
attached (the `PayloadTime.date` shape has none). -/
theorem c7_theorem (env : Gcal.CalendarEnv) (svc : Service)
    (hok : (Gcal.get_service env.auth).2 = Outcome.ok svc)
    (title start stop descr : String) (sdt edt : SimpleDT) :
    (containsSpace start = true → strptimeYmdHM start = some sdt →
      strptimeYmdHM stop = some edt →
      Gcal.create_event env title start stop descr
        = ((Gcal.get_service env.auth).1
            ++ [Effect.insertEvent ⟨title, PayloadTime.dateTime sdt localOffsetMinutes,
                  PayloadTime.dateTime edt localOffsetMinutes, pyDescription descr⟩,
                Effect.printOut ("Event created: " ++ Gcal.optToStr env.insertLink)],
           Outcome.ok ()))
    ∧ (containsSpace start = false →
      Gcal.create_event env title start stop descr
        = ((Gcal.get_service env.auth).1
            ++ [Effect.insertEvent ⟨title, PayloadTime.date start, PayloadTime.date stop,
                  pyDescription descr⟩,
                Effect.printOut ("Event created: " ++ Gcal.optToStr env.insertLink)],
           Outcome.ok ())) := by
  have hpair : Gcal.get_service env.auth
      = ((Gcal.get_service env.auth).1, (Gcal.get_service env.auth).2) := rfl
  constructor
  · intro hsp h1 h2
    unfold Gcal.create_event
    rw [hpair, hok]
    by_cases hd : descr = "" <;>
      simp [andThen, hsp, h1, h2, pyDescription, hd]
  · intro hsp
    unfold Gcal.create_event
    rw [hpair, hok]
    by_cases hd : descr = "" <;>
      simp [andThen, hsp, pyDescription, hd]

/-- C7 witness: the two worked examples from the specification. -/
theorem c7_witness :
    Gcal.create_event ⟨envFreshAuth, some "L"⟩ "Standup" "2024-01-10 09:00"
        "2024-01-10 09:30" ""
      = ((Gcal.get_service envFreshAuth).1
          ++ [Effect.insertEvent ⟨"Standup",
                PayloadTime.dateTime ⟨2024, 1, 10, 9, 0⟩ localOffsetMinutes,
                PayloadTime.dateTime ⟨2024, 1, 10, 9, 30⟩ localOffsetMinutes,
                pyDescription ""⟩,
              Effect.printOut ("Event created: " ++ Gcal.optToStr (some "L"))],
         Outcome.ok ())
    ∧ Gcal.create_event ⟨envFreshAuth, some "L"⟩ "Trip" "2024-01-10" "2024-01-12" ""
      = ((Gcal.get_service envFreshAuth).1
          ++ [Effect.insertEvent ⟨"Trip", PayloadTime.date "2024-01-10",
                PayloadTime.date "2024-01-12", pyDescription ""⟩,
              Effect.printOut ("Event created: " ++ Gcal.optToStr (some "L"))],
         Outcome.ok ()) :=
  ⟨(c7_theorem ⟨envFreshAuth, some "L"⟩ ⟨"calendar", "v3", Credentials.ofTokenData tok0⟩
      (by decide) "Standup" "2024-01-10 09:00" "2024-01-10 09:30" ""
      ⟨2024, 1, 10, 9, 0⟩ ⟨2024, 1, 10, 9, 30⟩).1 (by decide) (by decide) (by decide),
   (c7_theorem ⟨envFreshAuth, some "L"⟩ ⟨"calendar", "v3", Credentials.ofTokenData tok0⟩
      (by decide) "Trip" "2024-01-10" "2024-01-12" ""
      ⟨2024, 1, 10, 9, 0⟩ ⟨2024, 1, 10, 9, 30⟩).2 (by decide)⟩

/-! ## C9 — display conversion to the fixed zone -/

/-- C9: `astimezone` to the fixed local zone preserves the instant and
round-trips (converting back to the original offset is the identity); a
timed event is displayed through exactly that conversion of both endpoints;
a date-only start is displayed as the fixed `All day` text with no
conversion applied to anything. -/
theorem c9_theorem :
    (∀ t : AwareDT,
      (astimezone t localOffsetMinutes).instantMinutes = t.instantMinutes
      ∧ astimezone (astimezone t localOffsetMinutes) t.offsetMinutes = t)
    ∧ (∀ (e : GEvent) (s en : AwareDT), e.start = EvTime.timed s →
        e.stop = EvTime.timed en →
        format_event e
          = some ("  " ++ (strftimeHM (astimezone s localOffsetMinutes) ++ " - " ++
                   strftimeHM (astimezone en localOffsetMinutes)) ++ ": " ++
                  summaryOrDefault e ++ locationSuffix e))
    ∧ (∀ (e : GEvent) (d : String), e.start = EvTime.allday d →
        format_event e
          = some ("  " ++ "All day" ++ ": " ++ summaryOrDefault e ++ locationSuffix e)) := by
  refine ⟨fun t => ⟨rfl, rfl⟩, ?_, ?_⟩
  · intro e s en hs he
    obtain ⟨st, sp, sm, lo⟩ := e
    cases hs
    cases he
    rfl
  · intro e d hd
    obtain ⟨st, sp, sm, lo⟩ := e
    cases hd
    rfl

/-- A concrete timed event: 09:30–10:00 UTC, i.e. 17:30–18:00 local. -/
def ev9 : GEvent :=
  ⟨EvTime.timed ⟨570, 0⟩, EvTime.timed ⟨600, 0⟩, some "Standup", none⟩

/-- C9 witness. -/
theorem c9_witness :
    format_event ev9
      = some ("  " ++ (strftimeHM (astimezone ⟨570, 0⟩ localOffsetMinutes) ++ " - " ++
               strftimeHM (astimezone ⟨600, 0⟩ localOffsetMinutes)) ++ ": " ++
              summaryOrDefault ev9 ++ locationSuffix ev9)
    ∧ astimezone (astimezone ⟨570, 0⟩ localOffsetMinutes) (0 : Int) = ⟨570, 0⟩ :=
  ⟨c9_theorem.2.1 ev9 ⟨570, 0⟩ ⟨600, 0⟩ rfl rfl,
   (c9_theorem.1 ⟨570, 0⟩).2⟩

/-! ## C6 — read_email body extraction -/

/-- A fetched message with no usable body data, no parts, and a snippet key
holding the empty string. -/
def emptySnippetMsg : Gmail.Message := ⟨⟨[], none, some []⟩, some ""⟩

/-- C6 counterexample: when the payload yields no body and the snippet field
is present but empty, `read_email` prints the empty snippet — not the
literal `No body content` fallback, which only applies when the `snippet`
key is absent. -/
theorem c6_counterexample :
    emptySnippetMsg.snippet = some ""
    ∧ Gmail.readBodyLine id emptySnippetMsg = ""
    ∧ Gmail.readBodyLine id emptySnippetMsg ≠ "No body content" := by
  decide

/-- C6 (amended): the displayed body follows this total (never-raising)
priority order — the direct body data when present and non-empty, decoded;
otherwise the first `text/plain` part that carries data, decoded; if the
body text so obtained is empty, the `snippet` value whenever the key is
present (including a present-but-empty snippet, which displays as empty
output); the literal `No body content` only when the `snippet` key is
absent. -/
theorem c6_theorem (dec : String → String) :
    (∀ (msg : Gmail.Message) (d : String), Gmail.directData msg.payload = some d →
      Gmail.readBodyLine dec msg = Gmail.pyOr (dec d) (Gmail.snippetOrDefault msg))
    ∧ (∀ (msg : Gmail.Message) (parts : List Gmail.MsgPart) (d : String),
        Gmail.directData msg.payload = none → msg.payload.parts = some parts →
        Gmail.firstPlainData parts = some d →
        Gmail.readBodyLine dec msg = Gmail.pyOr (dec d) (Gmail.snippetOrDefault msg))
    ∧ (∀ (msg : Gmail.Message) (s : String), Gmail.directData msg.payload = none →
        (msg.payload.parts = none ∨
          ∃ parts, msg.payload.parts = some parts ∧ Gmail.firstPlainData parts = none) →
        msg.snippet = some s → Gmail.readBodyLine dec msg = s)
    ∧ (∀ msg : Gmail.Message, Gmail.directData msg.payload = none →
        (msg.payload.parts = none ∨
          ∃ parts, msg.payload.parts = some parts ∧ Gmail.firstPlainData parts = none) →
        msg.snippet = none → Gmail.readBodyLine dec msg = "No body content") := by
  refine ⟨?_, ?_, ?_, ?_⟩
  · intro msg d h
    simp [Gmail.readBodyLine, Gmail.extractBody, h]
  · intro msg parts d h1 h2 h3
    simp [Gmail.readBodyLine, Gmail.extractBody, h1, h2, h3]
  · intro msg s h1 h2 h3
    rcases h2 with h2 | ⟨parts, h2, h2b⟩ <;>
      simp [Gmail.readBodyLine, Gmail.extractBody, Gmail.pyOr,
        Gmail.snippetOrDefault, h1, h3, *]
  · intro msg h1 h2 h3
    rcases h2 with h2 | ⟨parts, h2, h2b⟩ <;>
      simp [Gmail.readBodyLine, Gmail.extractBody, Gmail.pyOr,
        Gmail.snippetOrDefault, h1, h3, *]

/-- C6 witness: a direct single-part body wins over snippet and parts. -/
theorem c6_witness :
    Gmail.readBodyLine id ⟨⟨[], some (some "hello"), none⟩, some "snip"⟩
      = Gmail.pyOr (id "hello")
          (Gmail.snippetOrDefault ⟨⟨[], some (some "hello"), none⟩, some "snip"⟩) :=
  (c6_theorem id).1 ⟨⟨[], some (some "hello"), none⟩, some "snip"⟩ "hello" (by decide)

/-! ## C8 — listing with limit 0 -/

/-- No message fetch ever happens inside `get_service` itself. -/
theorem gmail_auth_no_get (env : AuthEnv) (i : String) :
    Effect.getMessage i ∉ (Gmail.get_service env).1 := by
  rcases gmail_trace_cases env with h | h | h | ⟨d, h⟩ <;> rw [h] <;> simp

/-- No stdout print ever happens inside `get_service` itself. -/
theorem gmail_auth_no_print_out (env : AuthEnv) (s : String) :
    Effect.printOut s ∉ (Gmail.get_service env).1 := by
  rcases gmail_trace_cases env with h | h | h | ⟨d, h⟩ <;> rw [h] <;> simp

/-- C8: under a successfully authenticated invocation with `limit = 0`,
provided the provider honours `maxResults` (returns at most `limit` items),
the command performs the list call, prints only the `No emails found.` line,
fetches no message metadata, and prints no header block. -/
theorem c8_theorem (fetch : String → Gmail.MetaMessage) (auth : AuthEnv)
    (listed : Option (List String)) (unread : Bool) (svc : Service)
    (hok : (Gmail.get_service auth).2 = Outcome.ok svc)
    (hlim : (match listed with | some l => l | none => []).length ≤ 0) :
    Gmail.list_emails fetch auth listed unread 0
      = ((Gmail.get_service auth).1
          ++ [Effect.listMessages (if unread then "is:unread" else "") 0,
              Effect.printOut "No emails found."],
         Outcome.ok ())
    ∧ (∀ i, Effect.getMessage i ∉ (Gmail.list_emails fetch auth listed unread 0).1)
    ∧ Effect.printOut Gmail.eqBar ∉ (Gmail.list_emails fetch auth listed unread 0).1 := by
  have hpair : Gmail.get_service auth
      = ((Gmail.get_service auth).1, (Gmail.get_service auth).2) := rfl
  have hnil : (match listed with | some l => l | none => []) = [] := by
    exact List.eq_nil_of_length_eq_zero (Nat.le_zero.mp hlim)
  have heq : Gmail.list_emails fetch auth listed unread 0
      = ((Gmail.get_service auth).1
          ++ [Effect.listMessages (if unread then "is:unread" else "") 0,
              Effect.printOut "No emails found."],
         Outcome.ok ()) := by
    unfold Gmail.list_emails
    rw [hpair, hok]
    simp [andThen, hnil]
  have hbar : Gmail.eqBar ≠ "No emails found." := by decide
  refine ⟨heq, ?_, ?_⟩
  · intro i
    rw [heq]
    simp only [List.mem_append, List.mem_cons, List.not_mem_nil, or_false]
    rintro (h | h | h)
    · exact gmail_auth_no_get auth i h
    · exact Effect.noConfusion h
    · exact Effect.noConfusion h
  · rw [heq]
    simp only [List.mem_append, List.mem_cons, List.not_mem_nil, or_false]
    rintro (h | h | h)
    · exact gmail_auth_no_print_out auth Gmail.eqBar h
    · exact Effect.noConfusion h
    · exact hbar (Effect.printOut.injEq Gmail.eqBar "No emails found." ▸ h : Gmail.eqBar = "No emails found.")

/-- C8 witness. -/
theorem c8_witness :
    Gmail.list_emails (fun _ => ⟨[], none⟩) envFreshAuth (some []) false 0
      = ((Gmail.get_service envFreshAuth).1
          ++ [Effect.listMessages "" 0, Effect.printOut "No emails found."],
         Outcome.ok ()) :=
  (c8_theorem (fun _ => ⟨[], none⟩) envFreshAuth (some []) false
    ⟨"gmail", "v1", Credentials.ofTokenData tok0⟩ (by decide) (by decide)).1
